import Mathlib

/-!
Verification of the hickory plotting-convenience layer: a shallow embedding
of the style-cycling engine (`hickory/cyclers.py`), the style-resolution
policies of `HickoryAxes` (`hickory/axes.py`), the marker-name lookup
(`hickory/markers.py`), and the histogram bin-count derivation
(`HickoryAxes.hist`), together with theorems settling the specification
claims about them.

Python values that flow through style keyword dictionaries are either
strings, the `None` singleton, or dash-pattern tuples
`(offset, (on, off, ...))`; `PyVal` models exactly these.
-/

/-- A Python value appearing as a style value or style-request entry:
a string, `None`, or a dash tuple `(offset, (on, off, ...))`. -/
inductive PyVal where
  | str : String → PyVal
  | pnone : PyVal
  | tup : Nat → List Nat → PyVal
  deriving DecidableEq, Repr

/-- An iterator object, as stored in `MultiCycler._cycles`: either an
`itertools.cycle` over a saved element list with a cursor position, or a
plain finite list iterator (such as `iter(lst)`), which exhausts. -/
inductive Iter where
  | cycleIter : List PyVal → Nat → Iter
  | listIter : List PyVal → Iter
  deriving DecidableEq, Repr

/-- Model of `next(it)`: `None` models a raised `StopIteration`; otherwise the
yielded value and the advanced iterator. `itertools.cycle` over a
non-empty saved list yields the element at the cursor and moves the
cursor forward modulo the length; over an empty list it raises at once.
A list iterator yields its head and drops it, raising when empty. -/
def Iter.next : Iter → Option (PyVal × Iter)
  | .cycleIter es p =>
    if h : es.length = 0 then Option.none
    else some (es.get ⟨p % es.length, Nat.mod_lt p (Nat.pos_of_ne_zero h)⟩,
               .cycleIter es ((p + 1) % es.length))
  | .listIter [] => Option.none
  | .listIter (x :: xs) => some (x, .listIter xs)

/-- The value produced by the `(k+1)`-th consecutive `next` call on an
iterator (`k = 0` is the first call); `None` once the iterator raises. -/
def Iter.nthNext : Iter → Nat → Option PyVal
  | it, 0 => (Iter.next it).map Prod.fst
  | it, k + 1 =>
    match Iter.next it with
    | Option.none => Option.none
    | some (_, it') => Iter.nthNext it' k

/-- The tuple `DEFAULT_MARKERS = ('o', 'd', '^', 's', 'v', 'h', 'p', 'P', 'H', 'X')`
from `hickory/cyclers.py`. -/
def DEFAULT_MARKERS : List PyVal :=
  [.str "o", .str "d", .str "^", .str "s", .str "v",
   .str "h", .str "p", .str "P", .str "H", .str "X"]

/-- The `EXTRA_LINESTYLES` dict from `hickory/cyclers.py`, mapping dash
names to `(offset, (on, off, ...))` tuples. -/
def EXTRA_LINESTYLES : List (String × PyVal) :=
  [("loose dotted", .tup 0 [1, 10]),
   ("dense dotted", .tup 0 [1, 1]),
   ("loose dashed", .tup 0 [5, 5]),
   ("very loose dashed", .tup 0 [5, 10]),
   ("dense dashed", .tup 0 [5, 1]),
   ("dashdotdot", .tup 0 [3, 5, 1, 5, 1, 5]),
   ("dense dashdot", .tup 0 [3, 1, 1, 1]),
   ("dense dashdotdot", .tup 0 [3, 1, 1, 1, 1, 1])]

/-- Indexing `EXTRA_LINESTYLES[name]` (dict indexing; returns `None` on a missing
key only in the model — all uses in the source index existing keys). -/
def extraLinestyle (name : String) : PyVal :=
  match EXTRA_LINESTYLES.lookup name with
  | some v => v
  | Option.none => PyVal.pnone

/-- The tuple `DEFAULT_LINESTYLES` from `hickory/cyclers.py`: three named styles,
six dash tuples drawn from `EXTRA_LINESTYLES`, and `'dashdot'`. -/
def DEFAULT_LINESTYLES : List PyVal :=
  [.str "solid", .str "dashed", .str "dotted",
   extraLinestyle "dense dashdot",
   extraLinestyle "loose dashed",
   extraLinestyle "dense dashdotdot",
   extraLinestyle "dense dotted",
   .str "dashdot",
   extraLinestyle "very loose dashed",
   extraLinestyle "dense dashed"]

/-- The list `DEFAULT_COLORS` from `hickory/cyclers.py`. -/
def DEFAULT_COLORS : List PyVal :=
  [.str "#1f77b4", .str "#ff7f0e", .str "#2ca02c", .str "#d62728",
   .str "#9467bd", .str "#8c564b", .str "#e377c2", .str "#7f7f7f",
   .str "#bcbd22", .str "#17becf"]

/-- An argument passed for one property at `MultiCycler` construction:
either an object with a `__next__` attribute (an iterator) or a raw
list without one. -/
inductive CycArg where
  | iter : Iter → CycArg
  | rawList : List PyVal → CycArg
  deriving DecidableEq, Repr

/-- The errors `MultiCycler.next` can surface: the `ValueError` for an
unregistered property name, or a `StopIteration` propagated from the
stored iterator. -/
inductive NextError where
  | unknownCycle : String → NextError
  | stopIteration : NextError
  deriving DecidableEq, Repr

/-- The `MultiCycler` object: its `_cycles` dict, keys in insertion order. -/
structure MultiCycler where
  cycles : List (String × Iter)
  deriving DecidableEq, Repr

/-- Dict membership / indexing on the `_cycles` association list. -/
def lookupCycle : List (String × Iter) → String → Option Iter
  | [], _ => Option.none
  | (k0, v0) :: rest, k => if k0 = k then some v0 else lookupCycle rest k

/-- Dict assignment `_cycles[k] = v` for an existing key `k`. -/
def updateAssoc : List (String × Iter) → String → Iter → List (String × Iter)
  | [], _, _ => []
  | (k0, v0) :: rest, k, v =>
    if k0 = k then (k0, v) :: rest else (k0, v0) :: updateAssoc rest k v

/-- Model of `MultiCycler.__init__(**kw)`: each keyword value with a `__next__`
attribute is stored as-is; any other value is wrapped in
`itertools.cycle`. There is no validation — construction always
returns normally. -/
def MultiCycler.init (kw : List (String × CycArg)) : MultiCycler :=
  ⟨kw.map (fun p =>
    (p.1, match p.2 with
          | CycArg.iter it => it
          | CycArg.rawList l => Iter.cycleIter l 0))⟩

/-- Model of `MultiCycler.next(type)`: raises `ValueError` when `type` is not a
registered key (leaving the dict untouched), otherwise delegates to the
stored iterator, whose `StopIteration` propagates (again leaving the
dict entry unchanged, as the exhausted iterator object is unchanged). -/
def MultiCycler.next (mc : MultiCycler) (t : String) :
    Except NextError PyVal × MultiCycler :=
  match lookupCycle mc.cycles t with
  | Option.none => (Except.error (NextError.unknownCycle t), mc)
  | some it =>
    match Iter.next it with
    | Option.none => (Except.error NextError.stopIteration, mc)
    | some (v, it') => (Except.ok v, ⟨updateAssoc mc.cycles t it'⟩)

/-- The outcome of the `(k+1)`-th consecutive `next(t)` call on a
`MultiCycler` (`k = 0` is the first call), threading the state. -/
def MultiCycler.iterateNext (mc : MultiCycler) (t : String) :
    Nat → Except NextError PyVal × MultiCycler
  | 0 => mc.next t
  | k + 1 => ((mc.next t).2).iterateNext t k

/-- Model of `get_marker_cycler(markers)` = `itertools.cycle(markers)`. -/
def get_marker_cycler (markers : List PyVal) : Iter :=
  Iter.cycleIter markers 0

/-- Model of `get_linestyle_cycler(linestyles)` = `itertools.cycle(linestyles)`. -/
def get_linestyle_cycler (linestyles : List PyVal) : Iter :=
  Iter.cycleIter linestyles 0

/-- Model of `get_color_cycler(colors)` = `itertools.cycle(colors)`. -/
def get_color_cycler (colors : List PyVal) : Iter :=
  Iter.cycleIter colors 0

/-- Model of `get_default_multi_cycler()`: marker, linestyle and color cycles over
the three default lists. -/
def get_default_multi_cycler : MultiCycler :=
  MultiCycler.init
    [("marker", CycArg.iter (get_marker_cycler DEFAULT_MARKERS)),
     ("linestyle", CycArg.iter (get_linestyle_cycler DEFAULT_LINESTYLES)),
     ("color", CycArg.iter (get_color_cycler DEFAULT_COLORS))]

/-- The `MARKERS` name table from `hickory/markers.py`. -/
def MARKERS : List (String × String) :=
  [("point", "."), ("dot", ","), ("circle", "o"),
   ("triangle_down", "v"), ("triangle_up", "^"), ("triangle", "^"),
   ("triangle_left", "<"), ("triangle_right", ">"),
   ("tri_down", "1"), ("tri_up", "2"), ("tri_left", "3"), ("tri_right", "4"),
   ("octagon", "8"), ("square", "s"), ("pentagon", "p"),
   ("filled_plus", "P"), ("star", "*"),
   ("hexagon", "h"), ("hexagon1", "h"), ("hexagon2", "H"),
   ("plus", "+"), ("x", "x"), ("filled_x", "X"),
   ("thick_diamond", "D"), ("thin_diamond", "d"), ("diamond", "d")]

/-- Model of `get_marker(marker_name)` from `hickory/markers.py`: look the name up
in `MARKERS`; unknown names pass through unchanged. -/
def get_marker (marker_name : String) : String :=
  match MARKERS.lookup marker_name with
  | Option.none => marker_name
  | some m => m

/-- A drawing call's style-request keyword set, restricted to the fields
the resolution policies inspect. `Option.none` models an absent key;
`some PyVal.pnone` models a key explicitly set to Python `None`. -/
structure StyleKw where
  marker : Option PyVal
  linestyle : Option PyVal
  color : Option PyVal
  deriving DecidableEq, Repr

/-- Model of `HickoryAxes._set_color(kw)`: when no color was supplied, draw the
next color from the shared cycler. An exception from the cycler
propagates; the returned `MultiCycler` is the state as mutated so far. -/
def set_color (cyc : MultiCycler) (kw : StyleKw) :
    Except NextError StyleKw × MultiCycler :=
  match kw.color with
  | some _ => (Except.ok kw, cyc)
  | Option.none =>
    match cyc.next "color" with
    | (Except.ok v, c) => (Except.ok ⟨kw.marker, kw.linestyle, some v⟩, c)
    | (Except.error e, c) => (Except.error e, c)

/-- Model of `HickoryAxes._set_props_default_noline(kw)`: marker absent or the
sentinel `'cycle'` draws the next marker; linestyle absent or `None`
becomes the literal string `'none'`, the sentinel `'cycle'` draws the
next linestyle, and any other literal linestyle is left untouched. -/
def set_props_default_noline (cyc : MultiCycler) (kw : StyleKw) :
    Except NextError StyleKw × MultiCycler :=
  let step1 : Except NextError StyleKw × MultiCycler :=
    if kw.marker = Option.none ∨ kw.marker = some (PyVal.str "cycle") then
      match cyc.next "marker" with
      | (Except.ok v, c) => (Except.ok ⟨some v, kw.linestyle, kw.color⟩, c)
      | (Except.error e, c) => (Except.error e, c)
    else (Except.ok kw, cyc)
  match step1 with
  | (Except.error e, c) => (Except.error e, c)
  | (Except.ok kw1, c1) =>
    if kw1.linestyle = Option.none ∨ kw1.linestyle = some PyVal.pnone then
      (Except.ok ⟨kw1.marker, some (PyVal.str "none"), kw1.color⟩, c1)
    else if kw1.linestyle = some (PyVal.str "cycle") then
      match c1.next "linestyle" with
      | (Except.ok v, c2) => (Except.ok ⟨kw1.marker, some v, kw1.color⟩, c2)
      | (Except.error e, c2) => (Except.error e, c2)
    else (Except.ok kw1, c1)

/-- Model of `HickoryAxes._set_props_default_line(kw)`: linestyle absent or the
sentinel `'cycle'` draws the next linestyle, and an explicit `None`
linestyle becomes `'none'`; for marker, only the sentinel `'cycle'`
draws from the cycler — every other case (absent or literal) ends with
`kw['marker'] = None`. -/
def set_props_default_line (cyc : MultiCycler) (kw : StyleKw) :
    Except NextError StyleKw × MultiCycler :=
  let step1 : Except NextError StyleKw × MultiCycler :=
    if kw.linestyle = Option.none ∨ kw.linestyle = some (PyVal.str "cycle") then
      match cyc.next "linestyle" with
      | (Except.ok v, c) => (Except.ok ⟨kw.marker, some v, kw.color⟩, c)
      | (Except.error e, c) => (Except.error e, c)
    else if kw.linestyle = some PyVal.pnone then
      (Except.ok ⟨kw.marker, some (PyVal.str "none"), kw.color⟩, cyc)
    else (Except.ok kw, cyc)
  match step1 with
  | (Except.error e, c) => (Except.error e, c)
  | (Except.ok kw1, c1) =>
    if kw1.marker = some (PyVal.str "cycle") then
      match c1.next "marker" with
      | (Except.ok v, c2) => (Except.ok ⟨some v, kw1.linestyle, kw1.color⟩, c2)
      | (Except.error e, c2) => (Except.error e, c2)
    else (Except.ok ⟨some PyVal.pnone, kw1.linestyle, kw1.color⟩, c1)

/-- Modelled from the spec: the color-name table `COLORS` lives in
`hickory/colors.py`, which is not among the sources; §4.4 specifies only
lookup-or-pass-through behaviour, so the table itself is taken as a
parameter. This is the `if kw['color'] in COLORS: kw['color'] =
COLORS[kw['color']]` step shared by `plot`, `errorbar` and `curve`. -/
def translateColor (colorTable : List (String × String)) (kw : StyleKw) :
    StyleKw :=
  match kw.color with
  | some (PyVal.str s) =>
    match colorTable.lookup s with
    | some v => ⟨kw.marker, kw.linestyle, some (PyVal.str v)⟩
    | Option.none => kw
  | _ => kw

/-- The style-resolution pipeline of `HickoryAxes.plot`: `_set_color`,
then `_set_props_default_noline`, then the `COLORS` translation, before
delegating to the external renderer. -/
def plotResolve (colorTable : List (String × String)) (cyc : MultiCycler)
    (kw : StyleKw) : Except NextError StyleKw × MultiCycler :=
  match set_color cyc kw with
  | (Except.error e, c) => (Except.error e, c)
  | (Except.ok kw1, c1) =>
    match set_props_default_noline c1 kw1 with
    | (Except.error e, c) => (Except.error e, c)
    | (Except.ok kw2, c2) => (Except.ok (translateColor colorTable kw2), c2)

/-- The style-resolution pipeline of `HickoryAxes.errorbar` (identical
in the source to the `plot` pipeline). -/
def errorbarResolve (colorTable : List (String × String)) (cyc : MultiCycler)
    (kw : StyleKw) : Except NextError StyleKw × MultiCycler :=
  match set_color cyc kw with
  | (Except.error e, c) => (Except.error e, c)
  | (Except.ok kw1, c1) =>
    match set_props_default_noline c1 kw1 with
    | (Except.error e, c) => (Except.error e, c)
    | (Except.ok kw2, c2) => (Except.ok (translateColor colorTable kw2), c2)

/-- The style-resolution pipeline of `HickoryAxes.curve` (which
`HickoryAxes.function` delegates to): `_set_color`, then
`_set_props_default_line`, then the `COLORS` translation. -/
def curveResolve (colorTable : List (String × String)) (cyc : MultiCycler)
    (kw : StyleKw) : Except NextError StyleKw × MultiCycler :=
  match set_color cyc kw with
  | (Except.error e, c) => (Except.error e, c)
  | (Except.ok kw1, c1) =>
    match set_props_default_line c1 kw1 with
    | (Except.error e, c) => (Except.error e, c)
    | (Except.ok kw2, c2) => (Except.ok (translateColor colorTable kw2), c2)

/-- Python 3 `round` on an exact rational: round half to even. -/
def pyRound (q : ℚ) : Int :=
  let f : Int := ⌊q⌋
  let r : ℚ := q - f
  if r < 1 / 2 then f
  else if 1 / 2 < r then f + 1
  else if f % 2 = 0 then f else f + 1

/-- Model of `x.min()` on a data array; an empty array raises. -/
def arrayMin : List ℚ → Except String ℚ
  | [] => Except.error "zero-size array to reduction operation minimum"
  | x :: xs => Except.ok (xs.foldl min x)

/-- Model of `x.max()` on a data array; an empty array raises. -/
def arrayMax : List ℚ → Except String ℚ
  | [] => Except.error "zero-size array to reduction operation maximum"
  | x :: xs => Except.ok (xs.foldl max x)

/-- The arguments `HickoryAxes.hist` forwards to the external histogram
renderer (`super().hist(*args, bins=bins, range=range, **kw)`): only the
bin count and the resolved range — there is no bin-width field. -/
structure HistArgs where
  bins : Option Int
  range : Option (ℚ × ℚ)
  deriving DecidableEq, Repr

/-- Model of `HickoryAxes.hist`, restricted to its own logic (bin-count
derivation); `args` are the positional data arrays. When `binsize` is
given it takes precedence: the range is resolved (from `range`, else
from `min`/`max`, else from the data, raising if no data was sent) and
`bins = int(round((range[1] - range[0]) / binsize))`, clamped below
at 1. Everything is then handed to the external renderer. -/
def hist (args : List (List ℚ)) (binsize : Option ℚ) (bins0 : Option Int)
    (range0 : Option (ℚ × ℚ)) (min0 max0 : Option ℚ) :
    Except String HistArgs :=
  match binsize with
  | Option.none => Except.ok ⟨bins0, range0⟩
  | some bsize =>
    let rangeE : Except String (ℚ × ℚ) :=
      match range0 with
      | some r => Except.ok r
      | Option.none =>
        match args with
        | [] => Except.error "send data in position 1"
        | x :: _ =>
          let minE : Except String ℚ :=
            match min0 with
            | some m => Except.ok m
            | Option.none => arrayMin x
          let maxE : Except String ℚ :=
            match max0 with
            | some m => Except.ok m
            | Option.none => arrayMax x
          match minE, maxE with
          | Except.ok mn, Except.ok mx => Except.ok (mn, mx)
          | Except.error e, _ => Except.error e
          | _, Except.error e => Except.error e
    match rangeE with
    | Except.error e => Except.error e
    | Except.ok (rmin, rmax) =>
      let b : Int := pyRound ((rmax - rmin) / bsize)
      let b : Int := if b < 1 then 1 else b
      Except.ok ⟨some b, some (rmin, rmax)⟩

instance instDecEqExcept {e a : Type} [DecidableEq e] [DecidableEq a] :
    DecidableEq (Except e a) := fun x y =>
  match x, y with
  | Except.error e1, Except.error e2 =>
    if h : e1 = e2 then isTrue (by rw [h])
    else isFalse (fun hc => h (by cases hc; rfl))
  | Except.error _, Except.ok _ => isFalse (fun hc => Except.noConfusion hc)
  | Except.ok _, Except.error _ => isFalse (fun hc => Except.noConfusion hc)
  | Except.ok v1, Except.ok v2 =>
    if h : v1 = v2 then isTrue (by rw [h])
    else isFalse (fun hc => h (by cases hc; rfl))

/-! ### Helper lemmas about the cycler state -/

theorem lookupCycle_updateAssoc_ne (l : List (String × Iter)) (t k : String)
    (v : Iter) (h : t ≠ k) :
    lookupCycle (updateAssoc l t v) k = lookupCycle l k := by
  induction l with
  | nil => rfl
  | cons hd tl ih =>
    obtain ⟨k0, v0⟩ := hd
    by_cases h0 : k0 = t
    · subst h0
      simp [updateAssoc, lookupCycle, h]
    · simp [updateAssoc, lookupCycle, h0, ih]

/-- Advancing property `t1` leaves the stored cycle of every other
property untouched. -/
theorem next_lookup_ne (mc : MultiCycler) (t1 t2 : String) (h : t1 ≠ t2) :
    lookupCycle ((mc.next t1).2).cycles t2 = lookupCycle mc.cycles t2 := by
  unfold MultiCycler.next
  cases hl : lookupCycle mc.cycles t1 with
  | none => rfl
  | some it =>
    cases hn : Iter.next it with
    | none => simp [hn]
    | some p =>
      obtain ⟨v, it'⟩ := p
      simp [hn, lookupCycle_updateAssoc_ne mc.cycles t1 t2 it' h]

/-- The value drawn for `t` depends only on the stored cycle for `t`. -/
theorem next_fst_congr (mc1 mc2 : MultiCycler) (t : String)
    (h : lookupCycle mc1.cycles t = lookupCycle mc2.cycles t) :
    (mc1.next t).1 = (mc2.next t).1 := by
  unfold MultiCycler.next
  rw [h]
  cases lookupCycle mc2.cycles t with
  | none => rfl
  | some it =>
    cases hn : Iter.next it with
    | none => simp [hn]
    | some p => simp [hn]

/-- The stream of an `itertools.cycle` over a non-empty saved list:
the `(k+1)`-th `next` yields element `(p + k) mod N`. -/
theorem nthNext_cycleIter (es : List PyVal) (hne : es.length ≠ 0) :
    ∀ (k p : Nat), p < es.length →
      (Iter.cycleIter es p).nthNext k =
        some (es.get ⟨(p + k) % es.length, Nat.mod_lt _ (Nat.pos_of_ne_zero hne)⟩) := by
  intro k
  induction k with
  | zero =>
    intro p hp
    simp [Iter.nthNext, Iter.next, hne]
  | succ k ih =>
    intro p hp
    have hstep : Iter.next (Iter.cycleIter es p) =
        some (es.get ⟨p % es.length, Nat.mod_lt p (Nat.pos_of_ne_zero hne)⟩,
              Iter.cycleIter es ((p + 1) % es.length)) := by
      simp [Iter.next, hne]
    simp only [Iter.nthNext, hstep]
    rw [ih ((p + 1) % es.length) (Nat.mod_lt _ (Nat.pos_of_ne_zero hne))]
    have hidx : ((p + 1) % es.length + k) % es.length =
        (p + (k + 1)) % es.length := by
      rw [Nat.mod_add_mod]
      congr 1
      omega
    simp [hidx]

/-- Repeatedly requesting an unregistered property: every call errors
and the state never changes. -/
theorem iterateNext_unknown (mc : MultiCycler) (t : String)
    (h : lookupCycle mc.cycles t = Option.none) :
    ∀ k, mc.iterateNext t k = (Except.error (NextError.unknownCycle t), mc) := by
  have hbase : mc.next t = (Except.error (NextError.unknownCycle t), mc) := by
    unfold MultiCycler.next
    rw [h]
  intro k
  induction k with
  | zero => exact hbase
  | succ k ih =>
    rw [MultiCycler.iterateNext, hbase]
    exact ih

/-- One `next` step on a single-property cycler holding a finite list
iterator: the head is yielded and dropped. -/
theorem next_singleton_listIter_cons (key : String) (x : PyVal) (xs : List PyVal) :
    (MultiCycler.mk [(key, Iter.listIter (x :: xs))]).next key =
      (Except.ok x, ⟨[(key, Iter.listIter xs)]⟩) := by
  simp [MultiCycler.next, lookupCycle, Iter.next, updateAssoc]

/-- One `next` step on a single-property cycler holding an exhausted
finite list iterator: `StopIteration`, state unchanged. -/
theorem next_singleton_listIter_nil (key : String) :
    (MultiCycler.mk [(key, Iter.listIter [])]).next key =
      (Except.error NextError.stopIteration, ⟨[(key, Iter.listIter [])]⟩) := by
  simp [MultiCycler.next, lookupCycle, Iter.next]

/-- A finite list iterator stored in a `MultiCycler` yields its
elements in order. -/
theorem iterateNext_listIter_lt (key : String) :
    ∀ (k : Nat) (l : List PyVal) (hk : k < l.length),
      (MultiCycler.mk [(key, Iter.listIter l)]).iterateNext key k =
        (Except.ok (l.get ⟨k, hk⟩), ⟨[(key, Iter.listIter (l.drop (k + 1)))]⟩) := by
  intro k
  induction k with
  | zero =>
    intro l hk
    match l, hk with
    | x :: xs, _ =>
      rw [MultiCycler.iterateNext, next_singleton_listIter_cons]
      rfl
  | succ k ih =>
    intro l hk
    match l, hk with
    | x :: xs, hk =>
      rw [MultiCycler.iterateNext, next_singleton_listIter_cons]
      exact ih xs (Nat.lt_of_succ_lt_succ hk)

/-- A finite list iterator stored in a `MultiCycler` is exhausted after
yielding all its elements: from then on every call raises
`StopIteration` — it never wraps around. -/
theorem iterateNext_listIter_ge (key : String) :
    ∀ (k : Nat) (l : List PyVal), l.length ≤ k →
      (MultiCycler.mk [(key, Iter.listIter l)]).iterateNext key k =
        (Except.error NextError.stopIteration, ⟨[(key, Iter.listIter [])]⟩) := by
  intro k
  induction k with
  | zero =>
    intro l hk
    match l, hk with
    | [], _ =>
      rw [MultiCycler.iterateNext, next_singleton_listIter_nil]
  | succ k ih =>
    intro l hk
    match l with
    | [] =>
      rw [MultiCycler.iterateNext, next_singleton_listIter_nil]
      exact ih [] (Nat.zero_le k)
    | x :: xs =>
      rw [MultiCycler.iterateNext, next_singleton_listIter_cons]
      exact ih xs (Nat.le_of_succ_le_succ hk)

/-! ### Helper lemmas about the style-resolution steps -/

theorem set_color_of_some (cyc : MultiCycler) (kw : StyleKw) (c : PyVal)
    (h : kw.color = some c) : set_color cyc kw = (Except.ok kw, cyc) := by
  unfold set_color
  rw [h]

theorem set_color_fields (cyc : MultiCycler) (kw kw1 : StyleKw)
    (c1 : MultiCycler) (h : set_color cyc kw = (Except.ok kw1, c1)) :
    kw1.marker = kw.marker ∧ kw1.linestyle = kw.linestyle := by
  unfold set_color at h
  cases hc : kw.color with
  | some c =>
    rw [hc] at h
    cases h
    exact ⟨rfl, rfl⟩
  | none =>
    rw [hc] at h
    rcases hn : cyc.next "color" with ⟨r, c⟩
    rw [hn] at h
    cases r with
    | ok v =>
      cases h
      exact ⟨rfl, rfl⟩
    | error e => simp at h

theorem set_color_lookup_ne (cyc : MultiCycler) (kw : StyleKw) (t : String)
    (ht : t ≠ "color") :
    lookupCycle ((set_color cyc kw).2).cycles t = lookupCycle cyc.cycles t := by
  unfold set_color
  cases kw.color with
  | some c => rfl
  | none =>
    have hl := next_lookup_ne cyc "color" t (Ne.symm ht)
    rcases hn : cyc.next "color" with ⟨r, c⟩
    rw [hn] at hl
    cases r with
    | ok v => simpa [hn] using hl
    | error e => simpa [hn] using hl

theorem translateColor_fields (table : List (String × String)) (kw : StyleKw) :
    (translateColor table kw).marker = kw.marker ∧
      (translateColor table kw).linestyle = kw.linestyle := by
  rcases kw with ⟨m, l, c⟩
  cases c with
  | none => exact ⟨rfl, rfl⟩
  | some v =>
    cases v with
    | str s =>
      cases htl : List.lookup s table with
      | none => simp [translateColor, htl]
      | some w => simp [translateColor, htl]
    | pnone => exact ⟨rfl, rfl⟩
    | tup a b => exact ⟨rfl, rfl⟩

/-- With neither marker nor linestyle supplied, `_set_props_default_noline`
draws the next marker and sets linestyle to the string `'none'`. -/
theorem noline_default_char (cyc : MultiCycler) (kw : StyleKw)
    (hm : kw.marker = Option.none) (hl : kw.linestyle = Option.none) :
    set_props_default_noline cyc kw =
      match cyc.next "marker" with
      | (Except.ok v, c) =>
        (Except.ok ⟨some v, some (PyVal.str "none"), kw.color⟩, c)
      | (Except.error e, c) => (Except.error e, c) := by
  rcases kw with ⟨km, kl, kc⟩
  simp only at hm hl
  subst hm hl
  rcases hn : cyc.next "marker" with ⟨r, c⟩
  cases r with
  | ok v => simp [set_props_default_noline, hn]
  | error e => simp [set_props_default_noline, hn]

/-- A literal (non-sentinel) marker survives `_set_props_default_noline`
untouched — in particular it is not passed through any name lookup —
and the color field is not altered by this step. -/
theorem noline_marker_literal_kw (cyc : MultiCycler) (kw kw2 : StyleKw)
    (c2 : MultiCycler) (m : PyVal) (hm : kw.marker = some m)
    (hmc : m ≠ PyVal.str "cycle")
    (h : set_props_default_noline cyc kw = (Except.ok kw2, c2)) :
    kw2.marker = some m ∧ kw2.color = kw.color := by
  rcases kw with ⟨km, kl, kc⟩
  simp only at hm
  subst hm
  by_cases hls : (kl = Option.none ∨ kl = some PyVal.pnone)
  · simp [set_props_default_noline, hmc, hls] at h
    obtain ⟨h1, h2⟩ := h
    subst h1
    exact ⟨rfl, rfl⟩
  · by_cases hlc : kl = some (PyVal.str "cycle")
    · rcases hn : cyc.next "linestyle" with ⟨r, c⟩
      cases r with
      | ok v =>
        simp [set_props_default_noline, hmc, hls, hlc, hn] at h
        obtain ⟨h1, h2⟩ := h
        subst h1
        exact ⟨rfl, rfl⟩
      | error e =>
        simp [set_props_default_noline, hmc, hls, hlc, hn] at h
    · simp [set_props_default_noline, hmc, hls, hlc] at h
      obtain ⟨h1, h2⟩ := h
      subst h1
      exact ⟨rfl, rfl⟩

/-- With a literal (non-sentinel) marker supplied,
`_set_props_default_noline` never advances the marker cycle. -/
theorem noline_lookup_marker_literal (cyc : MultiCycler) (kw : StyleKw)
    (m : PyVal) (hm : kw.marker = some m) (hmc : m ≠ PyVal.str "cycle") :
    lookupCycle ((set_props_default_noline cyc kw).2).cycles "marker" =
      lookupCycle cyc.cycles "marker" := by
  rcases kw with ⟨km, kl, kc⟩
  simp only at hm
  subst hm
  by_cases hls : (kl = Option.none ∨ kl = some PyVal.pnone)
  · simp [set_props_default_noline, hmc, hls]
  · by_cases hlc : kl = some (PyVal.str "cycle")
    · have hpres := next_lookup_ne cyc "linestyle" "marker" (by decide)
      rcases hn : cyc.next "linestyle" with ⟨r, c⟩
      rw [hn] at hpres
      cases r with
      | ok v => simpa [set_props_default_noline, hmc, hls, hlc, hn] using hpres
      | error e => simpa [set_props_default_noline, hmc, hls, hlc, hn] using hpres
    · simp [set_props_default_noline, hmc, hls, hlc]

/-- With a literal (non-sentinel) linestyle supplied,
`_set_props_default_noline` never advances the linestyle cycle. -/
theorem noline_lookup_linestyle_literal (cyc : MultiCycler) (kw : StyleKw)
    (s : PyVal) (hl : kw.linestyle = some s) (hsc : s ≠ PyVal.str "cycle") :
    lookupCycle ((set_props_default_noline cyc kw).2).cycles "linestyle" =
      lookupCycle cyc.cycles "linestyle" := by
  rcases kw with ⟨km, kl, kc⟩
  simp only at hl
  subst hl
  by_cases hmk : (km = Option.none ∨ km = some (PyVal.str "cycle"))
  · have hpres := next_lookup_ne cyc "marker" "linestyle" (by decide)
    rcases hn : cyc.next "marker" with ⟨r, c⟩
    rw [hn] at hpres
    cases r with
    | ok v =>
      by_cases hsp : s = PyVal.pnone
      · simpa [set_props_default_noline, hmk, hn, hsp] using hpres
      · simpa [set_props_default_noline, hmk, hn, hsp, hsc] using hpres
    | error e => simpa [set_props_default_noline, hmk, hn] using hpres
  · by_cases hsp : s = PyVal.pnone
    · simp [set_props_default_noline, hmk, hsp]
    · simp [set_props_default_noline, hmk, hsp, hsc]

/-- The step `_set_props_default_noline` never touches the color cycle. -/
theorem noline_lookup_color (cyc : MultiCycler) (kw : StyleKw) :
    lookupCycle ((set_props_default_noline cyc kw).2).cycles "color" =
      lookupCycle cyc.cycles "color" := by
  rcases kw with ⟨km, kl, kc⟩
  by_cases hmk : (km = Option.none ∨ km = some (PyVal.str "cycle"))
  · have h1 := next_lookup_ne cyc "marker" "color" (by decide)
    rcases hn1 : cyc.next "marker" with ⟨r1, c1⟩
    rw [hn1] at h1
    cases r1 with
    | error e => simpa [set_props_default_noline, hmk, hn1] using h1
    | ok v =>
      by_cases hls : (kl = Option.none ∨ kl = some PyVal.pnone)
      · simpa [set_props_default_noline, hmk, hn1, hls] using h1
      · by_cases hlc : kl = some (PyVal.str "cycle")
        · have h2 := next_lookup_ne c1 "linestyle" "color" (by decide)
          rcases hn2 : c1.next "linestyle" with ⟨r2, c2⟩
          rw [hn2] at h2
          cases r2 with
          | ok w =>
            simpa [set_props_default_noline, hmk, hn1, hls, hlc, hn2]
              using h2.trans h1
          | error e =>
            simpa [set_props_default_noline, hmk, hn1, hls, hlc, hn2]
              using h2.trans h1
        · simpa [set_props_default_noline, hmk, hn1, hls, hlc] using h1
  · by_cases hls : (kl = Option.none ∨ kl = some PyVal.pnone)
    · simp [set_props_default_noline, hmk, hls]
    · by_cases hlc : kl = some (PyVal.str "cycle")
      · have h2 := next_lookup_ne cyc "linestyle" "color" (by decide)
        rcases hn2 : cyc.next "linestyle" with ⟨r2, c2⟩
        rw [hn2] at h2
        cases r2 with
        | ok w => simpa [set_props_default_noline, hmk, hls, hlc, hn2] using h2
        | error e =>
          simpa [set_props_default_noline, hmk, hls, hlc, hn2] using h2
      · simp [set_props_default_noline, hmk, hls, hlc]

/-- Under `_set_props_default_line`, a literal (non-sentinel) marker is
discarded: the resolved marker is Python `None`, whatever value the
caller passed; the color field is not altered by this step. -/
theorem line_marker_literal_kw (cyc : MultiCycler) (kw kw2 : StyleKw)
    (c2 : MultiCycler) (m : PyVal) (hm : kw.marker = some m)
    (hmc : m ≠ PyVal.str "cycle")
    (h : set_props_default_line cyc kw = (Except.ok kw2, c2)) :
    kw2.marker = some PyVal.pnone ∧ kw2.color = kw.color := by
  rcases kw with ⟨km, kl, kc⟩
  simp only at hm
  subst hm
  by_cases hls : (kl = Option.none ∨ kl = some (PyVal.str "cycle"))
  · rcases hn : cyc.next "linestyle" with ⟨r, c⟩
    cases r with
    | ok v =>
      simp [set_props_default_line, hls, hn, hmc] at h
      obtain ⟨h1, h2⟩ := h
      subst h1
      exact ⟨rfl, rfl⟩
    | error e => simp [set_props_default_line, hls, hn, hmc] at h
  · by_cases hsp : kl = some PyVal.pnone
    · simp [set_props_default_line, hls, hsp, hmc] at h
      obtain ⟨h1, h2⟩ := h
      subst h1
      exact ⟨rfl, rfl⟩
    · simp [set_props_default_line, hls, hsp, hmc] at h
      obtain ⟨h1, h2⟩ := h
      subst h1
      exact ⟨rfl, rfl⟩

/-- With a literal (non-sentinel) marker supplied,
`_set_props_default_line` never advances the marker cycle. -/
theorem line_lookup_marker_literal (cyc : MultiCycler) (kw : StyleKw)
    (m : PyVal) (hm : kw.marker = some m) (hmc : m ≠ PyVal.str "cycle") :
    lookupCycle ((set_props_default_line cyc kw).2).cycles "marker" =
      lookupCycle cyc.cycles "marker" := by
  rcases kw with ⟨km, kl, kc⟩
  simp only at hm
  subst hm
  by_cases hls : (kl = Option.none ∨ kl = some (PyVal.str "cycle"))
  · have hpres := next_lookup_ne cyc "linestyle" "marker" (by decide)
    rcases hn : cyc.next "linestyle" with ⟨r, c⟩
    rw [hn] at hpres
    cases r with
    | ok v => simpa [set_props_default_line, hls, hn, hmc] using hpres
    | error e => simpa [set_props_default_line, hls, hn, hmc] using hpres
  · by_cases hsp : kl = some PyVal.pnone
    · simp [set_props_default_line, hls, hsp, hmc]
    · simp [set_props_default_line, hls, hsp, hmc]

/-- With a literal (non-sentinel) linestyle supplied,
`_set_props_default_line` never advances the linestyle cycle. -/
theorem line_lookup_linestyle_literal (cyc : MultiCycler) (kw : StyleKw)
    (s : PyVal) (hl : kw.linestyle = some s) (hsc : s ≠ PyVal.str "cycle") :
    lookupCycle ((set_props_default_line cyc kw).2).cycles "linestyle" =
      lookupCycle cyc.cycles "linestyle" := by
  rcases kw with ⟨km, kl, kc⟩
  simp only at hl
  subst hl
  by_cases hmk : km = some (PyVal.str "cycle")
  · have hpres := next_lookup_ne cyc "marker" "linestyle" (by decide)
    by_cases hsp : s = PyVal.pnone
    · rcases hn : cyc.next "marker" with ⟨r, c⟩
      rw [hn] at hpres
      cases r with
      | ok v => simpa [set_props_default_line, hsc, hsp, hmk, hn] using hpres
      | error e => simpa [set_props_default_line, hsc, hsp, hmk, hn] using hpres
    · rcases hn : cyc.next "marker" with ⟨r, c⟩
      rw [hn] at hpres
      cases r with
      | ok v => simpa [set_props_default_line, hsc, hsp, hmk, hn] using hpres
      | error e => simpa [set_props_default_line, hsc, hsp, hmk, hn] using hpres
  · by_cases hsp : s = PyVal.pnone
    · simp [set_props_default_line, hsc, hsp, hmk]
    · simp [set_props_default_line, hsc, hsp, hmk]

/-- The step `_set_props_default_line` never touches the color cycle. -/
theorem line_lookup_color (cyc : MultiCycler) (kw : StyleKw) :
    lookupCycle ((set_props_default_line cyc kw).2).cycles "color" =
      lookupCycle cyc.cycles "color" := by
  rcases kw with ⟨km, kl, kc⟩
  by_cases hls : (kl = Option.none ∨ kl = some (PyVal.str "cycle"))
  · have h1 := next_lookup_ne cyc "linestyle" "color" (by decide)
    rcases hn1 : cyc.next "linestyle" with ⟨r1, c1⟩
    rw [hn1] at h1
    cases r1 with
    | error e => simpa [set_props_default_line, hls, hn1] using h1
    | ok v =>
      by_cases hmk : km = some (PyVal.str "cycle")
      · have h2 := next_lookup_ne c1 "marker" "color" (by decide)
        rcases hn2 : c1.next "marker" with ⟨r2, c2⟩
        rw [hn2] at h2
        cases r2 with
        | ok w =>
          simpa [set_props_default_line, hls, hn1, hmk, hn2] using h2.trans h1
        | error e =>
          simpa [set_props_default_line, hls, hn1, hmk, hn2] using h2.trans h1
      · simpa [set_props_default_line, hls, hn1, hmk] using h1
  · by_cases hsp : kl = some PyVal.pnone
    · by_cases hmk : km = some (PyVal.str "cycle")
      · have h2 := next_lookup_ne cyc "marker" "color" (by decide)
        rcases hn2 : cyc.next "marker" with ⟨r2, c2⟩
        rw [hn2] at h2
        cases r2 with
        | ok w => simpa [set_props_default_line, hls, hsp, hmk, hn2] using h2
        | error e => simpa [set_props_default_line, hls, hsp, hmk, hn2] using h2
      · simp [set_props_default_line, hls, hsp, hmk]
    · by_cases hmk : km = some (PyVal.str "cycle")
      · have h2 := next_lookup_ne cyc "marker" "color" (by decide)
        rcases hn2 : cyc.next "marker" with ⟨r2, c2⟩
        rw [hn2] at h2
        cases r2 with
        | ok w => simpa [set_props_default_line, hls, hsp, hmk, hn2] using h2
        | error e => simpa [set_props_default_line, hls, hsp, hmk, hn2] using h2
      · simp [set_props_default_line, hls, hsp, hmk]

/-- The method `errorbar` resolves styles exactly as `plot` does. -/
theorem errorbar_eq_plot : errorbarResolve = plotResolve := rfl

/-- A literal (non-sentinel) marker keeps the `plot` pipeline away from
the marker cycle. -/
theorem plotResolve_lookup_marker_literal (table : List (String × String))
    (cyc : MultiCycler) (kw : StyleKw) (m : PyVal) (hm : kw.marker = some m)
    (hmc : m ≠ PyVal.str "cycle") :
    lookupCycle ((plotResolve table cyc kw).2).cycles "marker" =
      lookupCycle cyc.cycles "marker" := by
  have h1 := set_color_lookup_ne cyc kw "marker" (by decide)
  rcases hsc : set_color cyc kw with ⟨r1, c1⟩
  rw [hsc] at h1
  cases r1 with
  | error e => simpa [plotResolve, hsc] using h1
  | ok kw1 =>
    have hf := set_color_fields cyc kw kw1 c1 hsc
    have h2 := noline_lookup_marker_literal c1 kw1 m (hf.1.trans hm) hmc
    rcases hn : set_props_default_noline c1 kw1 with ⟨r2, c2⟩
    rw [hn] at h2
    cases r2 with
    | error e => simpa [plotResolve, hsc, hn] using h2.trans h1
    | ok kw2 => simpa [plotResolve, hsc, hn] using h2.trans h1

/-- A literal (non-sentinel) linestyle keeps the `plot` pipeline away
from the linestyle cycle. -/
theorem plotResolve_lookup_linestyle_literal (table : List (String × String))
    (cyc : MultiCycler) (kw : StyleKw) (s : PyVal) (hl : kw.linestyle = some s)
    (hsc : s ≠ PyVal.str "cycle") :
    lookupCycle ((plotResolve table cyc kw).2).cycles "linestyle" =
      lookupCycle cyc.cycles "linestyle" := by
  have h1 := set_color_lookup_ne cyc kw "linestyle" (by decide)
  rcases hc : set_color cyc kw with ⟨r1, c1⟩
  rw [hc] at h1
  cases r1 with
  | error e => simpa [plotResolve, hc] using h1
  | ok kw1 =>
    have hf := set_color_fields cyc kw kw1 c1 hc
    have h2 := noline_lookup_linestyle_literal c1 kw1 s (hf.2.trans hl) hsc
    rcases hn : set_props_default_noline c1 kw1 with ⟨r2, c2⟩
    rw [hn] at h2
    cases r2 with
    | error e => simpa [plotResolve, hc, hn] using h2.trans h1
    | ok kw2 => simpa [plotResolve, hc, hn] using h2.trans h1

/-- A supplied color keeps the `plot` pipeline away from the color
cycle. -/
theorem plotResolve_lookup_color_literal (table : List (String × String))
    (cyc : MultiCycler) (kw : StyleKw) (c : PyVal) (hc : kw.color = some c) :
    lookupCycle ((plotResolve table cyc kw).2).cycles "color" =
      lookupCycle cyc.cycles "color" := by
  have hsc := set_color_of_some cyc kw c hc
  have h2 := noline_lookup_color cyc kw
  rcases hn : set_props_default_noline cyc kw with ⟨r2, c2⟩
  rw [hn] at h2
  cases r2 with
  | error e => simpa [plotResolve, hsc, hn] using h2
  | ok kw2 => simpa [plotResolve, hsc, hn] using h2

/-- A literal (non-sentinel) marker keeps the `curve` pipeline away from
the marker cycle. -/
theorem curveResolve_lookup_marker_literal (table : List (String × String))
    (cyc : MultiCycler) (kw : StyleKw) (m : PyVal) (hm : kw.marker = some m)
    (hmc : m ≠ PyVal.str "cycle") :
    lookupCycle ((curveResolve table cyc kw).2).cycles "marker" =
      lookupCycle cyc.cycles "marker" := by
  have h1 := set_color_lookup_ne cyc kw "marker" (by decide)
  rcases hsc : set_color cyc kw with ⟨r1, c1⟩
  rw [hsc] at h1
  cases r1 with
  | error e => simpa [curveResolve, hsc] using h1
  | ok kw1 =>
    have hf := set_color_fields cyc kw kw1 c1 hsc
    have h2 := line_lookup_marker_literal c1 kw1 m (hf.1.trans hm) hmc
    rcases hn : set_props_default_line c1 kw1 with ⟨r2, c2⟩
    rw [hn] at h2
    cases r2 with
    | error e => simpa [curveResolve, hsc, hn] using h2.trans h1
    | ok kw2 => simpa [curveResolve, hsc, hn] using h2.trans h1

/-- A literal (non-sentinel) linestyle keeps the `curve` pipeline away
from the linestyle cycle. -/
theorem curveResolve_lookup_linestyle_literal (table : List (String × String))
    (cyc : MultiCycler) (kw : StyleKw) (s : PyVal) (hl : kw.linestyle = some s)
    (hsc : s ≠ PyVal.str "cycle") :
    lookupCycle ((curveResolve table cyc kw).2).cycles "linestyle" =
      lookupCycle cyc.cycles "linestyle" := by
  have h1 := set_color_lookup_ne cyc kw "linestyle" (by decide)
  rcases hc : set_color cyc kw with ⟨r1, c1⟩
  rw [hc] at h1
  cases r1 with
  | error e => simpa [curveResolve, hc] using h1
  | ok kw1 =>
    have hf := set_color_fields cyc kw kw1 c1 hc
    have h2 := line_lookup_linestyle_literal c1 kw1 s (hf.2.trans hl) hsc
    rcases hn : set_props_default_line c1 kw1 with ⟨r2, c2⟩
    rw [hn] at h2
    cases r2 with
    | error e => simpa [curveResolve, hc, hn] using h2.trans h1
    | ok kw2 => simpa [curveResolve, hc, hn] using h2.trans h1

/-- A supplied color keeps the `curve` pipeline away from the color
cycle. -/
theorem curveResolve_lookup_color_literal (table : List (String × String))
    (cyc : MultiCycler) (kw : StyleKw) (c : PyVal) (hc : kw.color = some c) :
    lookupCycle ((curveResolve table cyc kw).2).cycles "color" =
      lookupCycle cyc.cycles "color" := by
  have hsc := set_color_of_some cyc kw c hc
  have h2 := line_lookup_color cyc kw
  rcases hn : set_props_default_line cyc kw with ⟨r2, c2⟩
  rw [hn] at h2
  cases r2 with
  | error e => simpa [curveResolve, hsc, hn] using h2
  | ok kw2 => simpa [curveResolve, hsc, hn] using h2

/-- No marker and no linestyle supplied: a successful `plot` resolution
ends with linestyle `'none'` and with the marker drawn from the marker
cycle of the incoming cycler state. -/
theorem plotResolve_default_char (table : List (String × String))
    (cyc : MultiCycler) (kw kw' : StyleKw) (c' : MultiCycler)
    (hm : kw.marker = Option.none) (hl : kw.linestyle = Option.none)
    (h : plotResolve table cyc kw = (Except.ok kw', c')) :
    kw'.linestyle = some (PyVal.str "none") ∧
      kw'.marker = (cyc.next "marker").1.toOption := by
  unfold plotResolve at h
  split at h
  · simp at h
  · rename_i kw1 c1 heq1
    split at h
    · simp at h
    · rename_i kw2 c2 heq2
      have hf := set_color_fields cyc kw kw1 c1 heq1
      have hchar := noline_default_char c1 kw1 (hf.1.trans hm) (hf.2.trans hl)
      have hcomb := hchar.symm.trans heq2
      have hlk := set_color_lookup_ne cyc kw "marker" (by decide)
      rw [heq1] at hlk
      have hval := next_fst_congr c1 cyc "marker" hlk
      split at hcomb
      · rename_i v c3 heq3
        rw [heq3] at hval
        injection hcomb with hA hB
        injection hA with hA2
        injection h with h1 h2
        injection h1 with h1a
        constructor
        · rw [← h1a, (translateColor_fields table kw2).2, ← hA2]
        · rw [← h1a, (translateColor_fields table kw2).1, ← hA2, ← hval]
          rfl
      · simp at hcomb

/-- A literal (non-sentinel) marker: a successful `plot` resolution
passes it through verbatim, with no name lookup applied. -/
theorem plotResolve_marker_literal_char (table : List (String × String))
    (cyc : MultiCycler) (kw kw' : StyleKw) (c' : MultiCycler) (m : PyVal)
    (hm : kw.marker = some m) (hmc : m ≠ PyVal.str "cycle")
    (h : plotResolve table cyc kw = (Except.ok kw', c')) :
    kw'.marker = some m := by
  unfold plotResolve at h
  split at h
  · simp at h
  · rename_i kw1 c1 heq1
    split at h
    · simp at h
    · rename_i kw2 c2 heq2
      have hf := set_color_fields cyc kw kw1 c1 heq1
      have hk2 := noline_marker_literal_kw c1 kw1 kw2 c2 m (hf.1.trans hm) hmc
        heq2
      injection h with h1 h2
      injection h1 with h1a
      rw [← h1a, (translateColor_fields table kw2).1, hk2.1]

/-- A literal (non-sentinel) marker: a successful `curve` resolution
discards it, resolving the marker to Python `None`. -/
theorem curveResolve_marker_literal_char (table : List (String × String))
    (cyc : MultiCycler) (kw kw' : StyleKw) (c' : MultiCycler) (m : PyVal)
    (hm : kw.marker = some m) (hmc : m ≠ PyVal.str "cycle")
    (h : curveResolve table cyc kw = (Except.ok kw', c')) :
    kw'.marker = some PyVal.pnone := by
  unfold curveResolve at h
  split at h
  · simp at h
  · rename_i kw1 c1 heq1
    split at h
    · simp at h
    · rename_i kw2 c2 heq2
      have hf := set_color_fields cyc kw kw1 c1 heq1
      have hk2 := line_marker_literal_kw c1 kw1 kw2 c2 m (hf.1.trans hm) hmc
        heq2
      injection h with h1 h2
      injection h1 with h1a
      rw [← h1a, (translateColor_fields table kw2).1, hk2.1]

/-! ### Claim theorems -/

/-- C4: cycle determinism and wraparound — a style cycle built from a
non-empty list of N values yields the list in order on the first N
advances, and the (N+k)-th advance yields the same value as the k-th. -/
theorem c4_cycle_determinism_wraparound :
    ∀ (es : List PyVal), es ≠ [] →
      (∀ (k : Nat) (hk : k < es.length),
        (get_marker_cycler es).nthNext k = some (es.get ⟨k, hk⟩)) ∧
      (∀ k : Nat, (get_marker_cycler es).nthNext (es.length + k) =
        (get_marker_cycler es).nthNext k) := by
  intro es hne
  have hlen : es.length ≠ 0 := fun h0 => hne (List.length_eq_zero.mp h0)
  have hpos : 0 < es.length := Nat.pos_of_ne_zero hlen
  constructor
  · intro k hk
    rw [get_marker_cycler, nthNext_cycleIter es hlen k 0 hpos]
    simp [Nat.mod_eq_of_lt hk]
  · intro k
    rw [get_marker_cycler, nthNext_cycleIter es hlen (es.length + k) 0 hpos,
        nthNext_cycleIter es hlen k 0 hpos]
    simp [Nat.add_mod_left]

/-- C4 witness: over the list `[A, B, C]` the fourth advance repeats the
first and the fifth repeats the second. -/
theorem c4_witness :
    ([PyVal.str "A", PyVal.str "B", PyVal.str "C"] ≠ ([] : List PyVal)) ∧
    ((get_marker_cycler [PyVal.str "A", PyVal.str "B", PyVal.str "C"]).nthNext
        ([PyVal.str "A", PyVal.str "B", PyVal.str "C"].length + 1) =
      (get_marker_cycler
        [PyVal.str "A", PyVal.str "B", PyVal.str "C"]).nthNext 1) :=
  ⟨by decide,
   (c4_cycle_determinism_wraparound
     [PyVal.str "A", PyVal.str "B", PyVal.str "C"] (by decide)).2 1⟩

/-- C5: requesting an unregistered property errors with the
unknown-property `ValueError` on every call, never touching the state —
so no registered cycle's cursor moves. -/
theorem c5_unknown_property_error :
    ∀ (mc : MultiCycler) (t : String),
      lookupCycle mc.cycles t = Option.none →
      ∀ k : Nat,
        mc.iterateNext t k = (Except.error (NextError.unknownCycle t), mc) :=
  fun mc t h k => iterateNext_unknown mc t h k

/-- C5 witness: `next("fontsize")` on the default marker/linestyle/color
cycler fails identically on the sixth call, state untouched. -/
theorem c5_witness :
    lookupCycle get_default_multi_cycler.cycles "fontsize" = Option.none ∧
    get_default_multi_cycler.iterateNext "fontsize" 5 =
      (Except.error (NextError.unknownCycle "fontsize"),
       get_default_multi_cycler) :=
  ⟨by decide,
   c5_unknown_property_error get_default_multi_cycler "fontsize" (by decide) 5⟩

/-- C7: advancing one property leaves the stored cycle (cursor included)
of every other property unchanged. -/
theorem c7_independent_cursors :
    ∀ (mc : MultiCycler) (t1 t2 : String), t1 ≠ t2 →
      lookupCycle ((mc.next t1).2).cycles t2 = lookupCycle mc.cycles t2 :=
  fun mc t1 t2 h => next_lookup_ne mc t1 t2 h

/-- C7 witness: drawing a marker from the default cycler leaves the
linestyle cycle where it was. -/
theorem c7_witness :
    "marker" ≠ "linestyle" ∧
    lookupCycle ((get_default_multi_cycler.next "marker").2).cycles
        "linestyle" =
      lookupCycle get_default_multi_cycler.cycles "linestyle" :=
  ⟨by decide,
   c7_independent_cursors get_default_multi_cycler "marker" "linestyle"
     (by decide)⟩

/-- C8: the three default lists are exactly as documented — markers
`o, d, ^, s, v, h, p, P, H, X`; the ten-color hex palette; and the ten
linestyles with the named styles `solid`, `dashed`, `dotted`, `dashdot`
and every other dash pattern as an `(offset, (on, off, ...))` tuple. -/
theorem c8_default_lists :
    DEFAULT_MARKERS =
      [PyVal.str "o", PyVal.str "d", PyVal.str "^", PyVal.str "s",
       PyVal.str "v", PyVal.str "h", PyVal.str "p", PyVal.str "P",
       PyVal.str "H", PyVal.str "X"] ∧
    DEFAULT_COLORS =
      [PyVal.str "#1f77b4", PyVal.str "#ff7f0e", PyVal.str "#2ca02c",
       PyVal.str "#d62728", PyVal.str "#9467bd", PyVal.str "#8c564b",
       PyVal.str "#e377c2", PyVal.str "#7f7f7f", PyVal.str "#bcbd22",
       PyVal.str "#17becf"] ∧
    DEFAULT_LINESTYLES =
      [PyVal.str "solid", PyVal.str "dashed", PyVal.str "dotted",
       PyVal.tup 0 [3, 1, 1, 1], PyVal.tup 0 [5, 5],
       PyVal.tup 0 [3, 1, 1, 1, 1, 1], PyVal.tup 0 [1, 1],
       PyVal.str "dashdot", PyVal.tup 0 [5, 10], PyVal.tup 0 [5, 1]] := by
  decide

/-- C2 counterexample: building a cycle from an empty list is NOT
rejected at construction — `MultiCycler.__init__` and
`get_marker_cycler` both return normally, installing an empty cycle —
and the failure (`StopIteration`) appears only at the first advance. -/
theorem c2_counterexample :
    MultiCycler.init [("marker", CycArg.rawList [])] =
      ⟨[("marker", Iter.cycleIter [] 0)]⟩ ∧
    get_marker_cycler [] = Iter.cycleIter [] 0 ∧
    (MultiCycler.init [("marker", CycArg.rawList [])]).next "marker" =
      (Except.error NextError.stopIteration,
       ⟨[("marker", Iter.cycleIter [] 0)]⟩) := by
  decide

/-- C2 amended: constructing from an empty style list always succeeds
(the empty cycle is installed); every later advance of that property —
the first included — fails with `StopIteration`, so the error surfaces
at first use, not at construction. -/
theorem c2_amended_empty_list :
    ∀ (key : String) (k : Nat),
      MultiCycler.init [(key, CycArg.rawList [])] =
        ⟨[(key, Iter.cycleIter [] 0)]⟩ ∧
      (MultiCycler.init [(key, CycArg.rawList [])]).iterateNext key k =
        (Except.error NextError.stopIteration,
         ⟨[(key, Iter.cycleIter [] 0)]⟩) := by
  intro key k
  refine ⟨rfl, ?_⟩
  have hbase : (⟨[(key, Iter.cycleIter [] 0)]⟩ : MultiCycler).next key =
      (Except.error NextError.stopIteration,
       ⟨[(key, Iter.cycleIter [] 0)]⟩) := by
    simp [MultiCycler.next, lookupCycle, Iter.next]
  show (⟨[(key, Iter.cycleIter [] 0)]⟩ : MultiCycler).iterateNext key k = _
  induction k with
  | zero => exact hbase
  | succ k ih =>
    rw [MultiCycler.iterateNext, hbase]
    exact ih

/-- C9: a constructor argument that already has `__next__` is stored
as-is — never wrapped in a wraparound cycle — so a finite iterator
yields its values once, in order, and from exhaustion on every
`next(property)` raises `StopIteration` instead of wrapping to the
first element. -/
theorem c9_iterator_stored_asis :
    (∀ (key : String) (it : Iter),
      MultiCycler.init [(key, CycArg.iter it)] = ⟨[(key, it)]⟩) ∧
    (∀ (key : String) (l : List PyVal) (k : Nat),
      (∀ hk : k < l.length,
        (MultiCycler.init
            [(key, CycArg.iter (Iter.listIter l))]).iterateNext key k =
          (Except.ok (l.get ⟨k, hk⟩),
           ⟨[(key, Iter.listIter (l.drop (k + 1)))]⟩)) ∧
      (l.length ≤ k →
        (MultiCycler.init
            [(key, CycArg.iter (Iter.listIter l))]).iterateNext key k =
          (Except.error NextError.stopIteration,
           ⟨[(key, Iter.listIter [])]⟩))) := by
  refine ⟨fun key it => rfl, fun key l k => ⟨fun hk => ?_, fun hk => ?_⟩⟩
  · exact iterateNext_listIter_lt key k l hk
  · exact iterateNext_listIter_ge key k l hk

/-- C9 witness: a two-element finite iterator registered for "marker"
raises `StopIteration` on the third call instead of wrapping. -/
theorem c9_witness :
    ([PyVal.str "A", PyVal.str "B"] : List PyVal).length ≤ 2 ∧
    (MultiCycler.init
        [("marker",
          CycArg.iter (Iter.listIter [PyVal.str "A", PyVal.str "B"]))]
      ).iterateNext "marker" 2 =
      (Except.error NextError.stopIteration,
       ⟨[("marker", Iter.listIter [])]⟩) :=
  ⟨by decide,
   (c9_iterator_stored_asis.2 "marker" [PyVal.str "A", PyVal.str "B"] 2).2
     (by decide)⟩

/-- C1: the no-line default policy of `plot` and `errorbar` — when the
style request carries neither a marker nor a linestyle key, resolution
sets linestyle to the string `'none'` and the marker to the next value
of the cycler's marker cycle; concretely, the first such call on a
fresh axes with the default cycler resolves to marker `'o'` and
linestyle `'none'`. -/
theorem c1_noline_default_policy :
    (∀ (table : List (String × String)) (cyc : MultiCycler)
        (kw kw' : StyleKw) (c' : MultiCycler),
      kw.marker = Option.none → kw.linestyle = Option.none →
      plotResolve table cyc kw = (Except.ok kw', c') →
      kw'.linestyle = some (PyVal.str "none") ∧
        kw'.marker = (cyc.next "marker").1.toOption) ∧
    (∀ (table : List (String × String)) (cyc : MultiCycler)
        (kw kw' : StyleKw) (c' : MultiCycler),
      kw.marker = Option.none → kw.linestyle = Option.none →
      errorbarResolve table cyc kw = (Except.ok kw', c') →
      kw'.linestyle = some (PyVal.str "none") ∧
        kw'.marker = (cyc.next "marker").1.toOption) ∧
    (plotResolve [] get_default_multi_cycler
        ⟨Option.none, Option.none, Option.none⟩).1 =
      Except.ok ⟨some (PyVal.str "o"), some (PyVal.str "none"),
        some (PyVal.str "#1f77b4")⟩ ∧
    (errorbarResolve [] get_default_multi_cycler
        ⟨Option.none, Option.none, Option.none⟩).1 =
      Except.ok ⟨some (PyVal.str "o"), some (PyVal.str "none"),
        some (PyVal.str "#1f77b4")⟩ := by
  refine ⟨fun table cyc kw kw' c' hm hl h =>
            plotResolve_default_char table cyc kw kw' c' hm hl h,
          fun table cyc kw kw' c' hm hl h => ?_, by decide, by decide⟩
  rw [errorbar_eq_plot] at h
  exact plotResolve_default_char table cyc kw kw' c' hm hl h

/-- C1 witness: the first keyword-free `plot` call on the default cycler
resolves with linestyle `'none'` and the marker drawn from the marker
cycle (namely `'o'`). -/
theorem c1_witness :
    ((⟨some (PyVal.str "o"), some (PyVal.str "none"),
        some (PyVal.str "#1f77b4")⟩ : StyleKw).linestyle =
      some (PyVal.str "none")) ∧
    ((⟨some (PyVal.str "o"), some (PyVal.str "none"),
        some (PyVal.str "#1f77b4")⟩ : StyleKw).marker =
      (get_default_multi_cycler.next "marker").1.toOption) :=
  c1_noline_default_policy.1 [] get_default_multi_cycler
    ⟨Option.none, Option.none, Option.none⟩
    ⟨some (PyVal.str "o"), some (PyVal.str "none"),
     some (PyVal.str "#1f77b4")⟩
    ⟨[("marker", Iter.cycleIter DEFAULT_MARKERS 1),
      ("linestyle", Iter.cycleIter DEFAULT_LINESTYLES 0),
      ("color", Iter.cycleIter DEFAULT_COLORS 1)]⟩
    rfl rfl (by decide)

/-- C3 counterexample: with the literal marker `'circle'` (a name the
`MARKERS` table maps to `'o'`), a `plot` resolution keeps `'circle'`
verbatim — the name lookup is never applied — and a `curve` resolution
discards the marker entirely, resolving it to Python `None`; both
contradict the claim that the resolved marker is the caller's value
after name translation. -/
theorem c3_counterexample :
    (plotResolve [] get_default_multi_cycler
        ⟨some (PyVal.str "circle"), some (PyVal.str "solid"),
         some (PyVal.str "red")⟩).1 =
      Except.ok ⟨some (PyVal.str "circle"), some (PyVal.str "solid"),
        some (PyVal.str "red")⟩ ∧
    get_marker "circle" = "o" ∧
    PyVal.str "circle" ≠ PyVal.str "o" ∧
    (curveResolve [] get_default_multi_cycler
        ⟨some (PyVal.str "circle"), some (PyVal.str "solid"),
         some (PyVal.str "red")⟩).1 =
      Except.ok ⟨some PyVal.pnone, some (PyVal.str "solid"),
        some (PyVal.str "red")⟩ := by
  decide

/-- C3 amended: a literal (non-sentinel) marker is used exactly as
supplied — with no marker-name translation — under the no-line policy
(`plot`, `errorbar`), while under the line-default policy (`curve`,
`function`) it is discarded and the resolved marker is Python `None`. -/
theorem c3_amended_literal_marker :
    ∀ (table : List (String × String)) (cyc : MultiCycler)
      (kw kw' : StyleKw) (c' : MultiCycler) (m : PyVal),
      kw.marker = some m → m ≠ PyVal.str "cycle" →
      (plotResolve table cyc kw = (Except.ok kw', c') →
        kw'.marker = some m) ∧
      (errorbarResolve table cyc kw = (Except.ok kw', c') →
        kw'.marker = some m) ∧
      (curveResolve table cyc kw = (Except.ok kw', c') →
        kw'.marker = some PyVal.pnone) := by
  intro table cyc kw kw' c' m hm hmc
  refine ⟨fun h => plotResolve_marker_literal_char table cyc kw kw' c' m
            hm hmc h,
          fun h => ?_,
          fun h => curveResolve_marker_literal_char table cyc kw kw' c' m
            hm hmc h⟩
  rw [errorbar_eq_plot] at h
  exact plotResolve_marker_literal_char table cyc kw kw' c' m hm hmc h

/-- C3 witness: a `plot` call with the literal marker `'s'` resolves to
marker `'s'` unchanged. -/
theorem c3_witness :
    ((⟨some (PyVal.str "s"), some (PyVal.str "solid"),
        some (PyVal.str "red")⟩ : StyleKw).marker = some (PyVal.str "s")) ∧
    ((⟨some (PyVal.str "s"), some (PyVal.str "solid"),
        some (PyVal.str "red")⟩ : StyleKw).marker = some (PyVal.str "s")) :=
  ⟨rfl,
   (c3_amended_literal_marker [] get_default_multi_cycler
     ⟨some (PyVal.str "s"), some (PyVal.str "solid"), some (PyVal.str "red")⟩
     ⟨some (PyVal.str "s"), some (PyVal.str "solid"), some (PyVal.str "red")⟩
     get_default_multi_cycler (PyVal.str "s") rfl (by decide)).1 (by decide)⟩

/-- C10: a drawing call that supplies a literal (non-sentinel) value for
marker, linestyle or color never advances the cycler's cycle for that
property — across `plot`, `errorbar` and `curve`/`function` alike — so
a later call that does draw from that cycle receives exactly the value
it would have received anyway. -/
theorem c10_literal_no_advance :
    ∀ (table : List (String × String)) (cyc : MultiCycler) (kw : StyleKw),
      (∀ m : PyVal, kw.marker = some m → m ≠ PyVal.str "cycle" →
        (lookupCycle ((plotResolve table cyc kw).2).cycles "marker" =
          lookupCycle cyc.cycles "marker") ∧
        ((((plotResolve table cyc kw).2).next "marker").1 =
          (cyc.next "marker").1) ∧
        (lookupCycle ((errorbarResolve table cyc kw).2).cycles "marker" =
          lookupCycle cyc.cycles "marker") ∧
        ((((errorbarResolve table cyc kw).2).next "marker").1 =
          (cyc.next "marker").1) ∧
        (lookupCycle ((curveResolve table cyc kw).2).cycles "marker" =
          lookupCycle cyc.cycles "marker") ∧
        ((((curveResolve table cyc kw).2).next "marker").1 =
          (cyc.next "marker").1)) ∧
      (∀ s : PyVal, kw.linestyle = some s → s ≠ PyVal.str "cycle" →
        (lookupCycle ((plotResolve table cyc kw).2).cycles "linestyle" =
          lookupCycle cyc.cycles "linestyle") ∧
        ((((plotResolve table cyc kw).2).next "linestyle").1 =
          (cyc.next "linestyle").1) ∧
        (lookupCycle ((errorbarResolve table cyc kw).2).cycles "linestyle" =
          lookupCycle cyc.cycles "linestyle") ∧
        ((((errorbarResolve table cyc kw).2).next "linestyle").1 =
          (cyc.next "linestyle").1) ∧
        (lookupCycle ((curveResolve table cyc kw).2).cycles "linestyle" =
          lookupCycle cyc.cycles "linestyle") ∧
        ((((curveResolve table cyc kw).2).next "linestyle").1 =
          (cyc.next "linestyle").1)) ∧
      (∀ c0 : PyVal, kw.color = some c0 → c0 ≠ PyVal.str "cycle" →
        (lookupCycle ((plotResolve table cyc kw).2).cycles "color" =
          lookupCycle cyc.cycles "color") ∧
        ((((plotResolve table cyc kw).2).next "color").1 =
          (cyc.next "color").1) ∧
        (lookupCycle ((errorbarResolve table cyc kw).2).cycles "color" =
          lookupCycle cyc.cycles "color") ∧
        ((((errorbarResolve table cyc kw).2).next "color").1 =
          (cyc.next "color").1) ∧
        (lookupCycle ((curveResolve table cyc kw).2).cycles "color" =
          lookupCycle cyc.cycles "color") ∧
        ((((curveResolve table cyc kw).2).next "color").1 =
          (cyc.next "color").1)) := by
  intro table cyc kw
  refine ⟨fun m hm hmc => ?_, fun s hl hsc => ?_, fun c0 hc hcc => ?_⟩
  · have hp := plotResolve_lookup_marker_literal table cyc kw m hm hmc
    have hcv := curveResolve_lookup_marker_literal table cyc kw m hm hmc
    have hpe : lookupCycle ((errorbarResolve table cyc kw).2).cycles
        "marker" = lookupCycle cyc.cycles "marker" := by
      rw [errorbar_eq_plot]
      exact hp
    exact ⟨hp, next_fst_congr _ _ _ hp, hpe, next_fst_congr _ _ _ hpe,
      hcv, next_fst_congr _ _ _ hcv⟩
  · have hp := plotResolve_lookup_linestyle_literal table cyc kw s hl hsc
    have hcv := curveResolve_lookup_linestyle_literal table cyc kw s hl hsc
    have hpe : lookupCycle ((errorbarResolve table cyc kw).2).cycles
        "linestyle" = lookupCycle cyc.cycles "linestyle" := by
      rw [errorbar_eq_plot]
      exact hp
    exact ⟨hp, next_fst_congr _ _ _ hp, hpe, next_fst_congr _ _ _ hpe,
      hcv, next_fst_congr _ _ _ hcv⟩
  · have hp := plotResolve_lookup_color_literal table cyc kw c0 hc
    have hcv := curveResolve_lookup_color_literal table cyc kw c0 hc
    have hpe : lookupCycle ((errorbarResolve table cyc kw).2).cycles
        "color" = lookupCycle cyc.cycles "color" := by
      rw [errorbar_eq_plot]
      exact hp
    exact ⟨hp, next_fst_congr _ _ _ hp, hpe, next_fst_congr _ _ _ hpe,
      hcv, next_fst_congr _ _ _ hcv⟩

/-- C10 witness: a `plot` call with the literal marker `'s'` leaves the
default cycler's marker cycle untouched. -/
theorem c10_witness :
    PyVal.str "s" ≠ PyVal.str "cycle" ∧
    lookupCycle ((plotResolve [] get_default_multi_cycler
        ⟨some (PyVal.str "s"), some (PyVal.str "solid"),
         some (PyVal.str "red")⟩).2).cycles "marker" =
      lookupCycle get_default_multi_cycler.cycles "marker" :=
  ⟨by decide,
   ((c10_literal_no_advance [] get_default_multi_cycler
     ⟨some (PyVal.str "s"), some (PyVal.str "solid"),
      some (PyVal.str "red")⟩).1 (PyVal.str "s") rfl (by decide)).1⟩

/-- C6: with a positive requested width and a resolved range, `hist`
forwards to the external renderer exactly the bin count
`round((max - min) / width)` clamped below at 1 — never zero or
negative — together with the resolved range, and nothing else (in
particular, never the width itself); concretely, range 0..1 with width
1/10 gives 10 bins and range 0..1/20 with width 1 gives 1 bin. -/
theorem c6_hist_bin_count :
    (∀ (args : List (List ℚ)) (bins0 : Option Int) (min0 max0 : Option ℚ)
        (rmin rmax w : ℚ), 0 < w →
      hist args (some w) bins0 (some (rmin, rmax)) min0 max0 =
        Except.ok ⟨some (max 1 (pyRound ((rmax - rmin) / w))),
          some (rmin, rmax)⟩ ∧
      1 ≤ max 1 (pyRound ((rmax - rmin) / w))) ∧
    hist [] (some ((1 : ℚ) / 10)) Option.none (some (0, 1)) Option.none
        Option.none =
      Except.ok ⟨some 10, some (0, 1)⟩ ∧
    hist [] (some (1 : ℚ)) Option.none (some (0, 1 / 20)) Option.none
        Option.none =
      Except.ok ⟨some 1, some (0, 1 / 20)⟩ := by
  refine ⟨fun args bins0 min0 max0 rmin rmax w hw => ⟨?_, le_max_left 1 _⟩,
    ?_, ?_⟩
  · have hmax : (if pyRound ((rmax - rmin) / w) < 1 then 1
        else pyRound ((rmax - rmin) / w)) =
        max 1 (pyRound ((rmax - rmin) / w)) := by
      rcases le_or_lt 1 (pyRound ((rmax - rmin) / w)) with hb | hb
      · rw [if_neg (not_lt.mpr hb), max_eq_right hb]
      · rw [if_pos hb, max_eq_left (le_of_lt hb)]
    simp [hist, hmax]
  · have hfloor : ⌊(10 : ℚ)⌋ = 10 := by norm_num
    have hround : pyRound (10 : ℚ) = 10 := by
      unfold pyRound
      rw [hfloor]
      norm_num
    simp [hist, hround]
  · have hfloor : ⌊((20 : ℚ)⁻¹)⌋ = 0 := by
      rw [Int.floor_eq_iff]
      norm_num
    have hround : pyRound ((20 : ℚ)⁻¹) = 0 := by
      unfold pyRound
      rw [hfloor]
      norm_num
    simp [hist, hround]

/-- C6 witness: range 2..5 with width 1 forwards bin count
`max 1 (round 3)` and the range, to the renderer. -/
theorem c6_witness :
    (0 : ℚ) < 1 ∧
    (hist [] (some (1 : ℚ)) Option.none (some (2, 5)) Option.none
        Option.none =
      Except.ok ⟨some (max 1 (pyRound (((5 : ℚ) - 2) / 1))),
        some (2, 5)⟩ ∧
      1 ≤ max 1 (pyRound (((5 : ℚ) - 2) / 1))) :=
  ⟨zero_lt_one,
   c6_hist_bin_count.1 [] Option.none Option.none Option.none 2 5 1
     zero_lt_one⟩
